import Mathlib

/-!
Verification of `odl/discr/discretization.py` (module `odl.discr.discretization`).

The module defines `DiscretizedSpace`, `DiscretizedSpaceElement` and the
backend selector `tspace_type`.  External collaborators (the dtype
classification predicates from `odl.util`, the backend registry
`tensor_space_impl` from `odl.space.entry_points`, and the capability base
classes `Set`, `TensorSpace`, `Tensor`) are not part of the excerpted source;
they are modelled from the specification where a definition is marked
`Modelled from the spec:`.  Everything else is a direct shallow embedding of
the Python source.
-/

namespace ODLDiscr

/-- Modelled from the spec: scalar data types as classified by the external
dtype utilities of `odl.util`.  A dtype is characterised, for the code at
hand, by which of the three classification predicates it satisfies. -/
inductive DType where
  | float32
  | float64
  | complex64
  | complex128
  | int16
  | int32
  | int64
  | uint8
  | boolT
  | strT
  deriving DecidableEq

/-- Modelled from the spec: `is_real_floating_dtype` from `odl.util`, a pure
predicate holding exactly for the real floating-point scalar types. -/
def is_real_floating_dtype : DType → Bool
  | .float32 => true
  | .float64 => true
  | _ => false

/-- Modelled from the spec: `is_complex_floating_dtype` from `odl.util`, a
pure predicate holding exactly for the complex floating-point scalar types. -/
def is_complex_floating_dtype : DType → Bool
  | .complex64 => true
  | .complex128 => true
  | _ => false

/-- Modelled from the spec: `is_numeric_dtype` from `odl.util`, a pure
predicate holding for numeric scalar types (floating or integer, not
boolean or string). -/
def is_numeric_dtype : DType → Bool
  | .boolT => false
  | .strT => false
  | _ => true

/-- Printable name of a dtype, standing in for Python's `repr`. -/
def DType.reprD : DType → String
  | .float32 => "float32"
  | .float64 => "float64"
  | .complex64 => "complex64"
  | .complex128 => "complex128"
  | .int16 => "int16"
  | .int32 => "int32"
  | .int64 => "int64"
  | .uint8 => "uint8"
  | .boolT => "bool"
  | .strT => "str"

/-- Modelled from the spec: the possible values of the `field` attribute of a
template space — an instance of `RealNumbers`, of `ComplexNumbers`, or of
some other field class. -/
inductive FieldVal where
  | realNumbers
  | complexNumbers
  | otherField
  deriving DecidableEq

/-- The Python class objects that `type(getattr(space, 'field', None))` can
produce: `NoneType` when the attribute is absent or `None`, else the class of
the field value. -/
inductive PyType where
  | noneType
  | realNumbersT
  | complexNumbersT
  | otherT
  deriving DecidableEq

/-- Printable name of a class object, standing in for Python's `format`. -/
def PyType.reprT : PyType → String
  | .noneType => "<class NoneType>"
  | .realNumbersT => "<class RealNumbers>"
  | .complexNumbersT => "<class ComplexNumbers>"
  | .otherT => "<class Field>"

/-- A template space as consumed by `tspace_type`: an optional algebraic
field (`none` models both an absent `field` attribute and `field = None`)
and its printable representation, used in error messages. -/
structure TemplateSpace where
  field : Option FieldVal
  reprS : String
  deriving DecidableEq

/-- `type(getattr(space, 'field', None))` from line 353 of the source. -/
def fieldTypeOf (space : TemplateSpace) : PyType :=
  match space.field with
  | none => .noneType
  | some .realNumbers => .realNumbersT
  | some .complexNumbers => .complexNumbersT
  | some .otherField => .otherT

/-- The Python test `field_type is None` (lines 358 and 363).  `field_type`
is the result of `type(...)`, which always returns a class object and never
the singleton `None` (`type(None)` is the class `NoneType`, not `None`), so
this identity test is identically false. -/
def pyTypeIsNoneObject (_ft : PyType) : Bool := false

/-- The Python exception kinds raised by the embedded code. -/
inductive PyError where
  | typeError (msg : String)
  | valueError (msg : String)
  | notImplementedError (msg : String)
  deriving DecidableEq

/-- A concrete tensor-space type (class object) as stored in the backend
registry. -/
structure TSType where
  name : String
  deriving DecidableEq

/-- The backend registry: a flat name-to-type map. -/
def Registry : Type := List (String × TSType)

/-- Modelled from the spec: the external registry lookup `tensor_space_impl`
from `odl.space.entry_points` — resolves a backend name to the registered
tensor-space type and raises a `ValueError` when the name is unregistered. -/
def tensor_space_impl (registry : Registry) (impl : String) : Except PyError TSType :=
  match List.lookup impl registry with
  | some t => .ok t
  | none => .error (.valueError ("invalid impl " ++ impl))

/-- The field/dtype validation chain of `tspace_type`, lines 355-371 of the
source: `pass` for a missing dtype, then the `elif` chain over the three
dtype classifications. -/
def field_check (field_type : PyType) (dtype : Option DType) : Except PyError Unit :=
  match dtype with
  | none => .ok ()
  | some d =>
    if is_real_floating_dtype d then
      if pyTypeIsNoneObject field_type || field_type == PyType.complexNumbersT then
        .error (.typeError ("real floating data type " ++ d.reprD ++
          " requires space field to be of type RealNumbers, got " ++ field_type.reprT))
      else .ok ()
    else if is_complex_floating_dtype d then
      if pyTypeIsNoneObject field_type || field_type == PyType.realNumbersT then
        .error (.typeError ("complex floating data type " ++ d.reprD ++
          " requires space field to be of type ComplexNumbers, got " ++ field_type.reprT))
      else .ok ()
    else if is_numeric_dtype d then
      if field_type == PyType.complexNumbersT then
        .error (.typeError ("non-floating data type " ++ d.reprD ++
          " requires space field to be of type RealNumbers, got " ++ field_type.reprT))
      else .ok ()
    else .ok ()

/-- The message of the `NotImplementedError` raised by `tspace_type` when the
registry lookup fails (lines 376-378): it names the template space and the
backend name. -/
def notImplMsg (spaceRepr impl : String) : String :=
  "no corresponding tensor space available for space " ++ spaceRepr ++
    " and implementation " ++ impl

/-- Shallow embedding of `tspace_type(space, impl, dtype=None)`, lines
331-378 of the source: compute `field_type`, run the validation chain, then
resolve `impl` through the registry, turning a `ValueError` into a
`NotImplementedError`. -/
def tspace_type (registry : Registry) (space : TemplateSpace) (impl : String)
    (dtype : Option DType) : Except PyError TSType :=
  let field_type := fieldTypeOf space
  match field_check field_type dtype with
  | .error e => .error e
  | .ok _ =>
    match tensor_space_impl registry impl with
    | .ok t => .ok t
    | .error _ => .error (.notImplementedError (notImplMsg space.reprS impl))

/-- Raw storage handles produced by a tensor space: a flat list of scalar
values (rationals standing in for the machine scalars). -/
abbrev Handle : Type := List ℚ

/-- Modelled from the spec: an instance of the external Abstract Set
capability (`odl.set.sets.Set`) — a `domain` attribute and a printable
representation.  Membership and examples are not needed by the embedded
code paths. -/
structure SetC where
  domain : String
  reprS : String
  deriving DecidableEq

/-- Modelled from the spec: an instance of the external TensorSpace
capability (`odl.space.base_tensors.TensorSpace`) — shape, scalar dtype and
backend name, plus a printable representation. -/
structure TensorSpaceC where
  shape : List Nat
  dtype : DType
  impl : String
  reprS : String
  deriving DecidableEq

/-- Number of entries of an element of the tensor space. -/
def TensorSpaceC.size (t : TensorSpaceC) : Nat := t.shape.prod

/-- Modelled from the spec: `tspace.zero()`, the all-zero storage handle. -/
def TensorSpaceC.zero (t : TensorSpaceC) : Handle := List.replicate t.size 0

/-- Modelled from the spec: `tspace.one()`, the all-one storage handle. -/
def TensorSpaceC.one (t : TensorSpaceC) : Handle := List.replicate t.size 1

/-- Modelled from the spec: the raw tensor-space linear combination, writing
`a * x1 + b * x2` into the output handle. -/
def TensorSpaceC.lincombT (_t : TensorSpaceC) (a : ℚ) (x1 : Handle) (b : ℚ)
    (x2 : Handle) (_out : Handle) : Handle :=
  List.zipWith (fun u v => a * u + b * v) x1 x2

/-- Modelled from the spec: the raw tensor-space distance (a concrete
instance: the 1-norm of the difference). -/
def TensorSpaceC.distT (_t : TensorSpaceC) (x1 x2 : Handle) : ℚ :=
  (List.zipWith (fun u v => |u - v|) x1 x2).sum

/-- Modelled from the spec: the raw tensor-space norm (a concrete instance:
the 1-norm). -/
def TensorSpaceC.normT (_t : TensorSpaceC) (x : Handle) : ℚ :=
  (List.map (fun u => |u|) x).sum

/-- Modelled from the spec: the raw tensor-space inner product. -/
def TensorSpaceC.innerT (_t : TensorSpaceC) (x1 x2 : Handle) : ℚ :=
  (List.zipWith (fun u v => u * v) x1 x2).sum

/-- Modelled from the spec: raw pointwise multiplication into the output
handle. -/
def TensorSpaceC.multiplyT (_t : TensorSpaceC) (x1 x2 _out : Handle) : Handle :=
  List.zipWith (fun u v => u * v) x1 x2

/-- Modelled from the spec: raw pointwise division into the output handle. -/
def TensorSpaceC.divideT (_t : TensorSpaceC) (x1 x2 _out : Handle) : Handle :=
  List.zipWith (fun u v => u / v) x1 x2

/-- A Python object as passed to the `DiscretizedSpace` constructor: an
instance of the `Set` capability, an instance of the `TensorSpace`
capability, or anything else.  Only the capability distinctions the embedded
`isinstance` checks depend on are modelled. -/
inductive PyObj where
  | setObj (s : SetC)
  | tspaceObj (t : TensorSpaceC)
  | other (r : String)
  deriving DecidableEq

/-- Python `repr` of an argument object, as interpolated by `format` into
the constructor error messages. -/
def PyObj.reprP : PyObj → String
  | .setObj s => s.reprS
  | .tspaceObj t => t.reprS
  | .other r => r

/-- The `isinstance(fspace, Set)` capability check of line 55. -/
def isinstanceSet : PyObj → Bool
  | .setObj _ => true
  | _ => false

/-- The `isinstance(tspace, TensorSpace)` capability check of line 58. -/
def isinstanceTensorSpace : PyObj → Bool
  | .tspaceObj _ => true
  | _ => false

/-- A constructed `DiscretizedSpace`: the base-class attributes `shape` and
`dtype` set by `super().__init__(tspace.shape, tspace.dtype)` on line 62,
and the private attributes `__fspace` and `__tspace` of lines 63-64. -/
structure DiscretizedSpace where
  shape : List Nat
  dtype : DType
  fspace : SetC
  tspace : TensorSpaceC
  deriving DecidableEq

/-- Shallow embedding of `DiscretizedSpace.__init__(fspace, tspace)`, lines
41-64 of the source: check the `Set` capability of `fspace`, then the
`TensorSpace` capability of `tspace`, raising a `TypeError` whose message
names the failing argument and interpolates its `repr`; on success store the
attributes, taking shape and dtype verbatim from `tspace`. -/
def DiscretizedSpace.init (fspace tspace : PyObj) : Except PyError DiscretizedSpace :=
  match fspace with
  | .setObj s =>
    match tspace with
    | .tspaceObj t =>
      .ok { shape := t.shape, dtype := t.dtype, fspace := s, tspace := t }
    | _ =>
      .error (.typeError ("`tspace` " ++ tspace.reprP ++ " not a `TensorSpace` instance"))
  | _ =>
    .error (.typeError ("`fspace` must be a `Set` instance, got " ++ fspace.reprP))

/-- Modelled from the spec: the base-space equality inherited from the
external `TensorSpace` base class, comparing the base attributes `shape` and
`dtype` set at construction — `super(DiscretizedSpace, self).__eq__(other)`
on line 121. -/
def DiscretizedSpace.baseEq (a b : DiscretizedSpace) : Bool :=
  decide (a.shape = b.shape) && decide (a.dtype = b.dtype)

/-- Shallow embedding of `DiscretizedSpace.__eq__(self, other)`, lines
104-123 of the source: `other is self` returns `True` (object identity is
modelled as structural equality, which the identity shortcut refines),
`other is None` returns `False`, otherwise base-space equality conjoined
with equality of `fspace` and `tspace`. -/
def DiscretizedSpace.eqPy (a : DiscretizedSpace) (other : Option DiscretizedSpace) : Bool :=
  match other with
  | none => false
  | some b =>
    if a = b then true
    else
      DiscretizedSpace.baseEq a b && decide (a.fspace = b.fspace) &&
        decide (a.tspace = b.tspace)

/-- A Cantor-style pairing, standing in for Python's tuple hashing. -/
def natPair (m n : Nat) : Nat := (m + n) * (m + n + 1) / 2 + n

/-- A string hash, standing in for Python's string hashing. -/
def strHash (s : String) : Nat :=
  s.foldl (fun h c => h * 31 + c.toNat) 7

/-- Hash of a list of naturals. -/
def listNatHash (l : List Nat) : Nat :=
  l.foldl (fun h n => natPair h n) 3

/-- Numeric code of a dtype, for hashing. -/
def DType.code : DType → Nat
  | .float32 => 0
  | .float64 => 1
  | .complex64 => 2
  | .complex128 => 3
  | .int16 => 4
  | .int32 => 5
  | .int64 => 6
  | .uint8 => 7
  | .boolT => 8
  | .strT => 9

/-- Modelled from the spec: the hash of the external `TensorSpace` base
class over the base attributes — `super(DiscretizedSpace, self).__hash__()`
on line 128. -/
def DiscretizedSpace.baseHash (a : DiscretizedSpace) : Nat :=
  natPair (listNatHash a.shape) a.dtype.code

/-- Hash of a `Set` capability instance. -/
def SetC.hashC (s : SetC) : Nat := natPair (strHash s.domain) (strHash s.reprS)

/-- Hash of a `TensorSpace` capability instance. -/
def TensorSpaceC.hashC (t : TensorSpaceC) : Nat :=
  natPair (natPair (listNatHash t.shape) t.dtype.code)
    (natPair (strHash t.impl) (strHash t.reprS))

/-- Shallow embedding of `DiscretizedSpace.__hash__(self)`, lines 125-131 of
the source: the hash of the triple `(super().__hash__(), fspace, tspace)`. -/
def DiscretizedSpace.hashPy (a : DiscretizedSpace) : Nat :=
  natPair (natPair a.baseHash a.fspace.hashC) a.tspace.hashC

/-- A `DiscretizedSpaceElement`: the `space` attribute set by the `Tensor`
base-class constructor and the private `__tensor` attribute, lines 211-214
of the source. -/
structure DiscretizedSpaceElement where
  space : DiscretizedSpace
  tensor : Handle
  deriving DecidableEq

/-- The `DiscretizedSpaceElement(space, tensor)` constructor, lines 211-214:
store the owning space and the raw storage handle, with no validation. -/
def DiscretizedSpaceElement.init (space : DiscretizedSpace) (tensor : Handle) :
    DiscretizedSpaceElement :=
  { space := space, tensor := tensor }

/-- `DiscretizedSpace.element_type`, lines 199-202: the class
`DiscretizedSpaceElement`, modelled as its constructor. -/
def DiscretizedSpace.element_type (_sp : DiscretizedSpace)
    (space : DiscretizedSpace) (tensor : Handle) : DiscretizedSpaceElement :=
  DiscretizedSpaceElement.init space tensor

/-- Shallow embedding of `DiscretizedSpace.element(self, inp=None, ...)`,
lines 81-102 of the source: the abstract factory of the base class, which
unconditionally raises `NotImplementedError('abstract method')`. -/
def DiscretizedSpace.element (_sp : DiscretizedSpace) (_inp : Option Handle) :
    Except PyError DiscretizedSpaceElement :=
  .error (.notImplementedError "abstract method")

/-- Shallow embedding of `DiscretizedSpace.zero(self)`, lines 138-140:
`self.element_type(self, self.tspace.zero())`. -/
def DiscretizedSpace.zero (sp : DiscretizedSpace) : DiscretizedSpaceElement :=
  sp.element_type sp sp.tspace.zero

/-- Shallow embedding of `DiscretizedSpace.one(self)`, lines 142-144:
`self.element_type(self, self.tspace.one())`. -/
def DiscretizedSpace.one (sp : DiscretizedSpace) : DiscretizedSpaceElement :=
  sp.element_type sp sp.tspace.one

/-- Shallow embedding of `DiscretizedSpace._lincomb(self, a, x1, b, x2,
out)`, lines 161-163: unwrap the elements and delegate to
`self.tspace._lincomb`; the returned handle is the new content of
`out.tensor`. -/
def DiscretizedSpace.lincombD (sp : DiscretizedSpace) (a : ℚ)
    (x1 : DiscretizedSpaceElement) (b : ℚ) (x2 : DiscretizedSpaceElement)
    (out : DiscretizedSpaceElement) : Handle :=
  sp.tspace.lincombT a x1.tensor b x2.tensor out.tensor

/-- Shallow embedding of `DiscretizedSpace._dist`, lines 165-167. -/
def DiscretizedSpace.distD (sp : DiscretizedSpace)
    (x1 x2 : DiscretizedSpaceElement) : ℚ :=
  sp.tspace.distT x1.tensor x2.tensor

/-- Shallow embedding of `DiscretizedSpace._norm`, lines 169-171. -/
def DiscretizedSpace.normD (sp : DiscretizedSpace)
    (x : DiscretizedSpaceElement) : ℚ :=
  sp.tspace.normT x.tensor

/-- Shallow embedding of `DiscretizedSpace._inner`, lines 173-175. -/
def DiscretizedSpace.innerD (sp : DiscretizedSpace)
    (x1 x2 : DiscretizedSpaceElement) : ℚ :=
  sp.tspace.innerT x1.tensor x2.tensor

/-- Shallow embedding of `DiscretizedSpace._multiply`, lines 177-179. -/
def DiscretizedSpace.multiplyD (sp : DiscretizedSpace)
    (x1 x2 out : DiscretizedSpaceElement) : Handle :=
  sp.tspace.multiplyT x1.tensor x2.tensor out.tensor

/-- Shallow embedding of `DiscretizedSpace._divide`, lines 181-183. -/
def DiscretizedSpace.divideD (sp : DiscretizedSpace)
    (x1 x2 out : DiscretizedSpaceElement) : Handle :=
  sp.tspace.divideT x1.tensor x2.tensor out.tensor

/-- Modelled from the spec: the membership test `other in self.space` of the
external base class — an element is a member of a space iff its `space`
attribute compares equal (Python `==`, embedded as `eqPy`) to the space. -/
def DiscretizedSpace.containsElem (sp : DiscretizedSpace)
    (x : DiscretizedSpaceElement) : Bool :=
  DiscretizedSpace.eqPy x.space (some sp)

/-- Shallow embedding of `DiscretizedSpaceElement.__eq__(self, other)`,
lines 271-281 of the source: `other in self.space and self.tensor ==
other.tensor`, with handle comparison being elementwise equality of the
stored values. -/
def DiscretizedSpaceElement.eqPy (x other : DiscretizedSpaceElement) : Bool :=
  x.space.containsElem other && decide (x.tensor = other.tensor)

/-- Deep copy of a storage handle (`self.tensor.copy()` on line 240); the
model data is immutable, so the copy is the value itself. -/
def Handle.copy (h : Handle) : Handle := h

/-- Shallow embedding of `DiscretizedSpaceElement.copy(self)`, lines
238-240: `self.space.element(self.tensor.copy())`. -/
def DiscretizedSpaceElement.copy (x : DiscretizedSpaceElement) :
    Except PyError DiscretizedSpaceElement :=
  x.space.element (some x.tensor.copy)

/-- Modelled from the spec: `self.space.astype(dtype)` of the external
`TensorSpace` base class — the dtype-retargeted counterpart of the space. -/
def DiscretizedSpace.astype (sp : DiscretizedSpace) (d : DType) : DiscretizedSpace :=
  { sp with dtype := d, tspace := { sp.tspace with dtype := d } }

/-- `self.tensor.astype(dtype)` on line 269: the handle's own retargeting;
the model's scalars are exact, so the values are unchanged. -/
def Handle.astype (h : Handle) (_d : DType) : Handle := h

/-- Shallow embedding of `DiscretizedSpaceElement.astype(self, dtype)`,
lines 253-269: `self.space.astype(dtype).element(self.tensor.astype(dtype))`. -/
def DiscretizedSpaceElement.astype (x : DiscretizedSpaceElement) (d : DType) :
    Except PyError DiscretizedSpaceElement :=
  (x.space.astype d).element (some (x.tensor.astype d))

/-! ### Concrete sample objects, used by witnesses and counterexamples -/

/-- A registered backend type. -/
def numpyType : TSType := { name := "NumpyTensorSpace" }

/-- A registry with one registered backend name. -/
def sampleRegistry : Registry := [("numpy", numpyType)]

/-- A template space exposing no algebraic field. -/
def spaceNoField : TemplateSpace := { field := none, reprS := "UniformPartition" }

/-- A template space with a real field. -/
def spaceRealField : TemplateSpace :=
  { field := some FieldVal.realNumbers, reprS := "rn(3)" }

/-- A template space with a complex field. -/
def spaceComplexField : TemplateSpace :=
  { field := some FieldVal.complexNumbers, reprS := "cn(3)" }

/-! ### Helper notions and lemmas -/

/-- `True` exactly when a computation raised the field-incompatibility
`TypeError` (as opposed to succeeding or raising any other error kind). -/
def isFieldTypeErrorE {α : Type} : Except PyError α → Bool
  | .error (.typeError _) => true
  | _ => false

/-- `tspace_type` raises a field-incompatibility `TypeError` exactly when
the validation chain `field_check` does: the registry branch only ever
produces a success or a `NotImplementedError`. -/
theorem isFieldTypeErrorE_tspace_type (registry : Registry) (space : TemplateSpace)
    (impl : String) (dtype : Option DType) :
    isFieldTypeErrorE (tspace_type registry space impl dtype) =
      isFieldTypeErrorE (field_check (fieldTypeOf space) dtype) := by
  unfold tspace_type
  rcases hc : field_check (fieldTypeOf space) dtype with e | u <;> simp only [hc]
  · cases e <;> rfl
  · rcases hr : tensor_space_impl registry impl with e | t <;>
      simp [hr, isFieldTypeErrorE]

/-- The field-incompatibility outcome of the validation chain, as a boolean
function of the field class and the dtype classification. -/
theorem field_check_classify (ft : PyType) (d : DType) :
    isFieldTypeErrorE (field_check ft (some d)) =
      ((is_real_floating_dtype d && ft == PyType.complexNumbersT) ||
        (is_complex_floating_dtype d && ft == PyType.realNumbersT) ||
        (!is_real_floating_dtype d && !is_complex_floating_dtype d &&
          is_numeric_dtype d && ft == PyType.complexNumbersT)) := by
  cases ft <;> cases d <;> rfl

/-- The computed field class is `ComplexNumbers` exactly for a complex
field value. -/
theorem fieldTypeOf_eq_complexT (space : TemplateSpace) :
    (fieldTypeOf space == PyType.complexNumbersT) =
      decide (space.field = some FieldVal.complexNumbers) := by
  rcases hf : space.field with _ | fv
  · simp [fieldTypeOf, hf]
  · cases fv <;> simp [fieldTypeOf, hf]

/-- The computed field class is `RealNumbers` exactly for a real field
value. -/
theorem fieldTypeOf_eq_realT (space : TemplateSpace) :
    (fieldTypeOf space == PyType.realNumbersT) =
      decide (space.field = some FieldVal.realNumbers) := by
  rcases hf : space.field with _ | fv
  · simp [fieldTypeOf, hf]
  · cases fv <;> simp [fieldTypeOf, hf]

/-! ### Claims -/

/-- C1, counterexample: a template space whose field is `None` (it exposes
no algebraic field) does NOT make `tspace_type` raise a
field-incompatibility type error for a real- or complex-floating dtype —
the lookup succeeds and the registered type is returned, because
`type(getattr(space, 'field', None))` is the class `NoneType`, never the
object `None`, so the guard `field_type is None` on lines 358 and 363 can
never fire. -/
theorem claim1_counterexample :
    tspace_type sampleRegistry spaceNoField "numpy" (some DType.float64) =
      Except.ok numpyType ∧
    tspace_type sampleRegistry spaceNoField "numpy" (some DType.complex128) =
      Except.ok numpyType := by
  exact ⟨rfl, rfl⟩

/-- C1, amended: for a real-floating dtype, `tspace_type` raises a
field-incompatibility type error exactly when the template space's field is
complex, and for a complex-floating dtype exactly when the field is real; a
space with field `None` (or any other field kind) passes both checks. -/
theorem claim1_amended (registry : Registry) (space : TemplateSpace) (impl : String)
    (d : DType) :
    (is_real_floating_dtype d = true →
      isFieldTypeErrorE (tspace_type registry space impl (some d)) =
        decide (space.field = some FieldVal.complexNumbers)) ∧
    (is_complex_floating_dtype d = true →
      isFieldTypeErrorE (tspace_type registry space impl (some d)) =
        decide (space.field = some FieldVal.realNumbers)) := by
  constructor <;> intro h <;>
    rw [isFieldTypeErrorE_tspace_type, field_check_classify]
  · cases d <;>
      simp_all [is_real_floating_dtype, is_complex_floating_dtype,
        is_numeric_dtype, fieldTypeOf_eq_complexT]
  · cases d <;>
      simp_all [is_real_floating_dtype, is_complex_floating_dtype,
        is_numeric_dtype, fieldTypeOf_eq_realT]

/-- C1, witness for the amended claim at a concrete input: a complex-field
template space with a real-floating dtype is rejected. -/
theorem claim1_amended_witness :
    isFieldTypeErrorE (tspace_type sampleRegistry spaceComplexField "numpy"
        (some DType.float64)) =
      decide (spaceComplexField.field = some FieldVal.complexNumbers) :=
  (claim1_amended sampleRegistry spaceComplexField "numpy" DType.float64).1 rfl

/-- C2: with `dtype = None`, `tspace_type` performs no field/dtype
validation — it never raises a field-incompatibility error, returns the
registered type when the backend name is registered, and raises the
not-implemented error when it is not; the outcome is determined solely by
the registry lookup. -/
theorem claim2_dtype_none_registry_only (registry : Registry)
    (space : TemplateSpace) (impl : String) :
    isFieldTypeErrorE (tspace_type registry space impl none) = false ∧
    (∀ t, List.lookup impl registry = some t →
      tspace_type registry space impl none = Except.ok t) ∧
    (List.lookup impl registry = none →
      tspace_type registry space impl none =
        Except.error (PyError.notImplementedError (notImplMsg space.reprS impl))) := by
  refine ⟨?_, ?_, ?_⟩
  · rw [isFieldTypeErrorE_tspace_type]; rfl
  · intro t ht
    simp [tspace_type, field_check, tensor_space_impl, ht]
  · intro hn
    simp [tspace_type, field_check, tensor_space_impl, hn]

/-- C2, witness: with `dtype = None` and an unregistered backend name the
outcome is the registry-lookup not-implemented failure, even for a space
with no field. -/
theorem claim2_witness :
    tspace_type sampleRegistry spaceNoField "cuda" none =
      Except.error (PyError.notImplementedError (notImplMsg spaceNoField.reprS "cuda")) :=
  (claim2_dtype_none_registry_only sampleRegistry spaceNoField "cuda").2.2 rfl

/-- C3: whenever the field/dtype validation passes, `tspace_type` returns
the registered tensor-space type for a registered backend name, and for an
unregistered name fails with a not-implemented error whose message names
both the template space and the backend name; the not-implemented kind is
distinct from the type-error kind. -/
theorem claim3_registry_lookup (registry : Registry) (space : TemplateSpace)
    (impl : String) (dtype : Option DType)
    (h : field_check (fieldTypeOf space) dtype = Except.ok ()) :
    (∀ t, List.lookup impl registry = some t →
      tspace_type registry space impl dtype = Except.ok t) ∧
    (List.lookup impl registry = none →
      tspace_type registry space impl dtype =
        Except.error (PyError.notImplementedError (notImplMsg space.reprS impl))) ∧
    (∀ m1 m2 : String, PyError.notImplementedError m1 ≠ PyError.typeError m2) := by
  refine ⟨?_, ?_, ?_⟩
  · intro t ht
    simp [tspace_type, h, tensor_space_impl, ht]
  · intro hn
    simp [tspace_type, h, tensor_space_impl, hn]
  · intro m1 m2
    simp

/-- C3, witness: with a real field and real-floating dtype, a registered
name resolves to the registered type and an unregistered name fails with
the not-implemented error naming space and backend. -/
theorem claim3_witness :
    tspace_type sampleRegistry spaceRealField "numpy" (some DType.float64) =
      Except.ok numpyType ∧
    tspace_type sampleRegistry spaceRealField "pytorch" (some DType.float64) =
      Except.error (PyError.notImplementedError
        (notImplMsg spaceRealField.reprS "pytorch")) :=
  ⟨(claim3_registry_lookup sampleRegistry spaceRealField "numpy"
      (some DType.float64) rfl).1 numpyType rfl,
   (claim3_registry_lookup sampleRegistry spaceRealField "pytorch"
      (some DType.float64) rfl).2.1 rfl⟩

/-- A sample abstract set. -/
def setA : SetC := { domain := "interval [0, 1]", reprS := "FunctionSpace" }

/-- A sample tensor space of shape `(3,)`. -/
def tspaceA : TensorSpaceC :=
  { shape := [3], dtype := DType.float64, impl := "numpy", reprS := "rn(3)" }

/-- The discretized space built from `setA` and `tspaceA`. -/
def dspA : DiscretizedSpace :=
  { shape := [3], dtype := DType.float64, fspace := setA, tspace := tspaceA }

/-- A sample element of `dspA`. -/
def elemA : DiscretizedSpaceElement := { space := dspA, tensor := [1, 2, 3] }

/-- Python `==` on discretized spaces agrees with structural equality of the
embedded values: the identity shortcut, the base-attribute comparison and
the `fspace`/`tspace` comparisons together decide exactly value equality. -/
theorem eqPy_space_iff (a b : DiscretizedSpace) :
    DiscretizedSpace.eqPy a (some b) = true ↔ a = b := by
  constructor
  · intro h
    unfold DiscretizedSpace.eqPy at h
    by_cases hab : a = b
    · exact hab
    · simp only [hab, if_false] at h
      simp only [DiscretizedSpace.baseEq, Bool.and_eq_true, decide_eq_true_eq] at h
      obtain ⟨⟨⟨h1, h2⟩, h3⟩, h4⟩ := h
      cases a
      cases b
      simp_all
  · intro h
    subst h
    simp [DiscretizedSpace.eqPy]

/-- C4: constructing a `DiscretizedSpace` from a `Set`-capability `fspace`
and a `TensorSpace`-capability `tspace` succeeds, and the constructed space
stores both arguments and takes its shape and dtype verbatim from
`tspace`. -/
theorem claim4_init_ok (s : SetC) (t : TensorSpaceC) :
    DiscretizedSpace.init (PyObj.setObj s) (PyObj.tspaceObj t) =
      Except.ok { shape := t.shape, dtype := t.dtype, fspace := s, tspace := t } ∧
    ∀ sp, DiscretizedSpace.init (PyObj.setObj s) (PyObj.tspaceObj t) =
        Except.ok sp →
      sp.shape = t.shape ∧ sp.dtype = t.dtype := by
  refine ⟨rfl, ?_⟩
  intro sp hsp
  simp only [DiscretizedSpace.init, Except.ok.injEq] at hsp
  subst hsp
  exact ⟨rfl, rfl⟩

/-- C4, witness: the sample space inherits shape and dtype from the sample
tensor space. -/
theorem claim4_witness : dspA.shape = tspaceA.shape ∧ dspA.dtype = tspaceA.dtype :=
  (claim4_init_ok setA tspaceA).2 dspA rfl

/-- C5: a non-`Set` `fspace` makes the constructor fail with a `TypeError`
naming `fspace` and interpolating its `repr`; with a valid `fspace`, a
non-`TensorSpace` `tspace` fails with a `TypeError` naming `tspace` and its
`repr`; in every such case no space is constructed. -/
theorem claim5_init_type_mismatch (fspace tspace : PyObj) :
    (isinstanceSet fspace = false →
      DiscretizedSpace.init fspace tspace =
        Except.error (PyError.typeError
          ("`fspace` must be a `Set` instance, got " ++ fspace.reprP))) ∧
    (isinstanceSet fspace = true → isinstanceTensorSpace tspace = false →
      DiscretizedSpace.init fspace tspace =
        Except.error (PyError.typeError
          ("`tspace` " ++ tspace.reprP ++ " not a `TensorSpace` instance"))) ∧
    ((isinstanceSet fspace = false ∨ isinstanceTensorSpace tspace = false) →
      ∀ sp, DiscretizedSpace.init fspace tspace ≠ Except.ok sp) := by
  refine ⟨?_, ?_, ?_⟩
  · intro h
    cases fspace <;> simp_all [isinstanceSet, DiscretizedSpace.init]
  · intro h1 h2
    cases fspace <;> simp_all [isinstanceSet]
    cases tspace <;> simp_all [isinstanceTensorSpace, DiscretizedSpace.init]
  · intro hor sp
    rcases hor with h | h
    · cases fspace <;> simp_all [isinstanceSet, DiscretizedSpace.init]
    · cases fspace <;> cases tspace <;>
        simp_all [isinstanceSet, isinstanceTensorSpace, DiscretizedSpace.init]

/-- C5, witness: a plain object as `fspace` is rejected naming `fspace`; a
plain object as `tspace` is rejected naming `tspace`. -/
theorem claim5_witness :
    DiscretizedSpace.init (PyObj.other "object()") (PyObj.tspaceObj tspaceA) =
      Except.error (PyError.typeError
        ("`fspace` must be a `Set` instance, got " ++
          (PyObj.other "object()").reprP)) ∧
    DiscretizedSpace.init (PyObj.setObj setA) (PyObj.other "object()") =
      Except.error (PyError.typeError
        ("`tspace` " ++ (PyObj.other "object()").reprP ++
          " not a `TensorSpace` instance")) :=
  ⟨(claim5_init_type_mismatch (PyObj.other "object()") (PyObj.tspaceObj tspaceA)).1
      rfl,
   (claim5_init_type_mismatch (PyObj.setObj setA) (PyObj.other "object()")).2.1
      rfl rfl⟩

/-- C6: Python `==` on discretized spaces holds exactly when base-space
equality, `fspace` equality and `tspace` equality all hold; it is reflexive;
comparison against `None` is `False`; and equal spaces have equal hashes
(the hash being derived from the same triple). -/
theorem claim6_space_eq_hash (a b : DiscretizedSpace) :
    (DiscretizedSpace.eqPy a (some b) = true ↔
      (DiscretizedSpace.baseEq a b = true ∧ a.fspace = b.fspace ∧
        a.tspace = b.tspace)) ∧
    DiscretizedSpace.eqPy a (some a) = true ∧
    DiscretizedSpace.eqPy a none = false ∧
    (DiscretizedSpace.eqPy a (some b) = true → a.hashPy = b.hashPy) := by
  refine ⟨?_, ?_, rfl, ?_⟩
  · constructor
    · intro h
      obtain rfl := (eqPy_space_iff a b).mp h
      refine ⟨?_, rfl, rfl⟩
      simp [DiscretizedSpace.baseEq]
    · rintro ⟨hb, hf, ht⟩
      simp only [DiscretizedSpace.baseEq, Bool.and_eq_true, decide_eq_true_eq] at hb
      obtain ⟨h1, h2⟩ := hb
      apply (eqPy_space_iff a b).mpr
      cases a
      cases b
      simp_all
  · exact (eqPy_space_iff a a).mpr rfl
  · intro h
    obtain rfl := (eqPy_space_iff a b).mp h
    rfl

/-- C6, witness: the sample space is equal to itself, unequal to `None`, and
its hash agrees with itself via the equality-hash implication. -/
theorem claim6_witness :
    DiscretizedSpace.eqPy dspA none = false ∧ dspA.hashPy = dspA.hashPy :=
  ⟨(claim6_space_eq_hash dspA dspA).2.2.1,
   (claim6_space_eq_hash dspA dspA).2.2.2 (claim6_space_eq_hash dspA dspA).2.1⟩

/-- C7: `zero()` and `one()` return elements wrapping exactly
`tspace.zero()` and `tspace.one()` whose `space` attribute is the space
itself; both are built directly through `element_type`, with no
validation. -/
theorem claim7_zero_one (sp : DiscretizedSpace) :
    sp.zero.tensor = sp.tspace.zero ∧ sp.zero.space = sp ∧
    sp.one.tensor = sp.tspace.one ∧ sp.one.space = sp :=
  ⟨rfl, rfl, rfl, rfl⟩

/-- C8: each raw primitive unwraps its element arguments to their storage
handles and delegates verbatim to the corresponding `tspace` primitive; in
particular the linear combination writes `a * x1 + b * x2` elementwise into
the output handle, and distance, norm and inner product return exactly the
`tspace` results. -/
theorem claim8_raw_delegation (sp : DiscretizedSpace) (a b : ℚ)
    (x x1 x2 out : DiscretizedSpaceElement) :
    sp.lincombD a x1 b x2 out =
      sp.tspace.lincombT a x1.tensor b x2.tensor out.tensor ∧
    sp.lincombD a x1 b x2 out =
      List.zipWith (fun u v => a * u + b * v) x1.tensor x2.tensor ∧
    sp.distD x1 x2 = sp.tspace.distT x1.tensor x2.tensor ∧
    sp.normD x = sp.tspace.normT x.tensor ∧
    sp.innerD x1 x2 = sp.tspace.innerT x1.tensor x2.tensor ∧
    sp.multiplyD x1 x2 out = sp.tspace.multiplyT x1.tensor x2.tensor out.tensor ∧
    sp.divideD x1 x2 out = sp.tspace.divideT x1.tensor x2.tensor out.tensor :=
  ⟨rfl, rfl, rfl, rfl, rfl, rfl, rfl⟩

/-- C9: element equality holds exactly when the other element is a member of
the element's space and the two storage handles are elementwise equal;
membership itself amounts to the spaces comparing equal. -/
theorem claim9_elem_eq (x other : DiscretizedSpaceElement) :
    DiscretizedSpaceElement.eqPy x other =
      (x.space.containsElem other && decide (x.tensor = other.tensor)) ∧
    (DiscretizedSpaceElement.eqPy x other = true ↔
      (x.space.containsElem other = true ∧ x.tensor = other.tensor)) ∧
    (x.space.containsElem other = true ↔ other.space = x.space) := by
  refine ⟨rfl, ?_, ?_⟩
  · simp [DiscretizedSpaceElement.eqPy, Bool.and_eq_true, decide_eq_true_eq]
  · exact eqPy_space_iff other.space x.space

/-- C9, witness: the sample element equals itself. -/
theorem claim9_witness : DiscretizedSpaceElement.eqPy elemA elemA = true :=
  (claim9_elem_eq elemA elemA).2.1.mpr
    ⟨(claim9_elem_eq elemA elemA).2.2.mpr rfl, rfl⟩

/-- C10: `zero()` and `one()` succeed on a space whose `element()` is the
abstract base method, because they construct elements directly through
`element_type`; whereas `copy()` and `astype(...)` go through
`space.element(...)` and therefore surface the not-implemented error of the
abstract `element()`. -/
theorem claim10_zero_one_vs_copy (sp : DiscretizedSpace)
    (x : DiscretizedSpaceElement) (d : DType) :
    sp.zero = DiscretizedSpaceElement.init sp sp.tspace.zero ∧
    sp.one = DiscretizedSpaceElement.init sp sp.tspace.one ∧
    sp.element (some sp.tspace.zero) =
      Except.error (PyError.notImplementedError "abstract method") ∧
    x.copy = Except.error (PyError.notImplementedError "abstract method") ∧
    x.astype d = Except.error (PyError.notImplementedError "abstract method") :=
  ⟨rfl, rfl, rfl, rfl, rfl⟩

end ODLDiscr
